import Mathlib

set_option maxRecDepth 100000

/-!
Verification development for the carquet interoperability harness
(python sources under src/benchmark and src/interop).

The Python comparator, orchestrator and generator code is shallowly
embedded: Python int is modelled as Int; Python float as an exact
fraction (`PyFloat` below — every float value this harness handles is
an exact dyadic or small decimal rational, and on such values Python's
subtraction, abs and comparisons are exact, so exact fraction
arithmetic agrees with IEEE semantics on every input used in the
theorems; float literals such as 1e-6 denote the exact decimal they
spell); JSON null is an explicit constructor; Python dicts are
association lists or records of the keys the code actually accesses; a
raised exception is an explicit outcome constructor and try/except a
total match on that outcome.
-/

/-- Exact fraction model of a Python float. Every value constructed in
this development has a positive `den`, under which `blt`, `ble` and
`beq` are the rational order and equality by cross-multiplication. -/
structure PyFloat where
  num : ℤ
  den : ℤ
deriving DecidableEq

/-- Build a float value from numerator and denominator. -/
def pf (n d : ℤ) : PyFloat := ⟨n, d⟩

/-- Exact subtraction of fractions (Python float subtraction, exact on
the dyadic values this harness compares). -/
def PyFloat.sub (a b : PyFloat) : PyFloat :=
  ⟨a.num * b.den - b.num * a.den, a.den * b.den⟩

/-- Strict comparison of fractions by cross-multiplication. -/
def PyFloat.blt (a b : PyFloat) : Bool := a.num * b.den < b.num * a.den

/-- Non-strict comparison of fractions by cross-multiplication. -/
def PyFloat.ble (a b : PyFloat) : Bool := a.num * b.den ≤ b.num * a.den

/-- Value equality of fractions by cross-multiplication (Python ==). -/
def PyFloat.beq (a b : PyFloat) : Bool := a.num * b.den == b.num * a.den

/-- The Python abs builtin: for a fraction with positive denominator
the sign is the numerator's sign. -/
def pyAbs (q : PyFloat) : PyFloat := if q.num < 0 then ⟨-q.num, q.den⟩ else q

/-- A JSON / Python scalar value as it appears in an Expected-Values
Manifest or in a reader-reported value list (verify_carquet_output.py). -/
inductive Value where
  | null
  | bool (b : Bool)
  | int (i : ℤ)
  | float (q : PyFloat)
  | str (s : String)
deriving DecidableEq

/-- Python equality on scalar values: numeric comparison crosses the
int / float / bool boundary (0 == 0.0 and True == 1 hold in Python);
None equals only None; strings compare by content. Embeds the
behaviour of the untyped comparison exp != act in compare_values. -/
def pyEq : Value → Value → Bool
  | .null, .null => true
  | .bool a, .bool b => a == b
  | .bool a, .int b => (if a then (1 : ℤ) else 0) == b
  | .int a, .bool b => a == (if b then (1 : ℤ) else 0)
  | .bool a, .float q => PyFloat.beq (pf (if a then 1 else 0) 1) q
  | .float q, .bool b => PyFloat.beq q (pf (if b then 1 else 0) 1)
  | .int a, .int b => a == b
  | .int a, .float q => PyFloat.beq (pf a 1) q
  | .float q, .int b => PyFloat.beq q (pf b 1)
  | .float a, .float b => PyFloat.beq a b
  | .str a, .str b => a == b
  | _, _ => false

/-- One discrepancy appended to the errors list of compare_values in
src/interop/verify_carquet_output.py; the constructors mirror the three
f-string shapes (row count mismatch naming the reader, column count
mismatch, value mismatch naming column and index). -/
inductive CVErr where
  | rowCountMismatch (reader : String) (expected got : ℤ)
  | colCountMismatch (expected got : ℤ)
  | valueMismatch (col : String) (idx : ℕ) (expected got : Value)
deriving DecidableEq

/-- The keys of the pyarrow column summary dict that
verify_carquet_output.py builds per column (type, null_count,
num_values, first_values, last_values). -/
structure PaColInfo where
  type : String
  null_count : ℤ
  num_values : ℤ
  first_values : List Value
  last_values : List Value
deriving DecidableEq

/-- The pyarrow reader result dict as consumed by compare_values:
success flag (False both for a read failure and for the availability
error dict, since dict.get of a missing key is falsy), num_rows,
num_columns, and the columns mapping. -/
structure PaReport where
  success : Bool
  num_rows : ℤ
  num_columns : ℤ
  columns : List (String × PaColInfo)
deriving DecidableEq

/-- The duckdb reader result dict as consumed by compare_values. -/
structure DuckRes where
  success : Bool
  num_rows : ℤ
deriving DecidableEq

/-- The expected-data dict passed to compare_values: num_rows and
num_columns (dict.get with default 0: the default is folded into the
field value) and the optional values mapping (the if-values-in-expected
test becomes an Option match). -/
structure CVExpected where
  num_rows : ℤ
  num_columns : ℤ
  values : Option (List (String × List Value))
deriving DecidableEq

/-- Association-list lookup, embedding Python dict indexing by key. -/
def assocFind {α : Type} : List (String × α) → String → Option α
  | [], _ => none
  | (k, v) :: rest, key => if k = key then some v else assocFind rest key

/-- The per-pair body of the value-comparison loop of compare_values
(src/interop/verify_carquet_output.py lines 158-165): a pair is
reported unless Python-equal (with the redundant both-None guard kept),
except that a float/float pair is reported only when the absolute
difference exceeds 1e-6 — one uniform tolerance regardless of the
column's declared precision. -/
def pairErr (col : String) (i : ℕ) (exp act : Value) : List CVErr :=
  if pyEq exp act = false ∧ ¬(exp = Value.null ∧ act = Value.null) then
    match exp, act with
    | .float a, .float b =>
        if PyFloat.blt (pf 1 1000000) (pyAbs (PyFloat.sub a b)) = true then
          [CVErr.valueMismatch col i exp act]
        else []
    | _, _ => [CVErr.valueMismatch col i exp act]
  else []

/-- The enumerate-zip loop of compare_values: walks the two value lists
in lock step (zip truncates at the shorter list), accumulating every
pair's errors — there is no break. -/
def comparePairs (col : String) : ℕ → List Value → List Value → List CVErr
  | _, [], _ => []
  | _, _ :: _, [] => []
  | i, e :: es, a :: as => pairErr col i e a ++ comparePairs col (i + 1) es as

/-- The per-column dispatch of compare_values' value check: each
expected column is looked up in the reader's columns mapping; a missing
column is skipped silently; at most the first 5 expected values are
compared against the reader's first_values. -/
def valuesErrs (vals : List (String × List Value))
    (cols : List (String × PaColInfo)) : List CVErr :=
  vals.flatMap fun p =>
    match assocFind cols p.1 with
    | some info => comparePairs p.1 0 (p.2.take 5) info.first_values
    | none => []

/-- compare_values from src/interop/verify_carquet_output.py
(lines 131-167): row-count checks for pyarrow and duckdb, a
column-count check for pyarrow, then the optional per-column value
comparison, all guarded by each reader's success flag, appended in
program order. -/
def compare_values (expected : CVExpected) (pa : PaReport) (db : DuckRes) :
    List CVErr :=
  (if pa.success = true ∧ pa.num_rows ≠ expected.num_rows then
      [CVErr.rowCountMismatch "PyArrow" expected.num_rows pa.num_rows] else [])
  ++ (if db.success = true ∧ db.num_rows ≠ expected.num_rows then
      [CVErr.rowCountMismatch "DuckDB" expected.num_rows db.num_rows] else [])
  ++ (if pa.success = true ∧ pa.num_columns ≠ expected.num_columns then
      [CVErr.colCountMismatch expected.num_columns pa.num_columns] else [])
  ++ (match expected.values with
      | some vals => if pa.success = true then valuesErrs vals pa.columns else []
      | none => [])

/-- One error string appended by verify_with_pyarrow in
src/interop/verify_comprehensive.py; constructors mirror the f-string
shapes in program order, carrying the interpolated values. -/
inductive CompErr where
  | rowCount (got expected : ℤ)
  | boolFirst (got expected : List Bool)
  | int32First (got expected : List ℤ)
  | int64First (got expected : List ℤ)
  | floatAt (idx : ℕ) (got expected : PyFloat)
  | doubleAt (idx : ℕ) (got expected : PyFloat)
  | stringFirst (got expected : List (Option String))
  | nullableFirst (got expected : List (Option ℤ))
  | stringNullCount (got expected : ℤ)
  | nullableNullCount (got expected : ℤ)
  | int32Sum (got expected : ℤ)
  | lastInt32 (got expected : ℤ)
deriving DecidableEq

/-- The pyarrow table of the comprehensive test file, as read back by
pq.read_table and converted with to_pylist: the fixed seven-column
schema of roundtrip_comprehensive, with string_col already decoded from
bytes to text (the decode step of verify_with_pyarrow) and nulls as
Option none. -/
structure CompTable where
  num_rows : ℤ
  bool_col : List Bool
  int32_col : List ℤ
  int64_col : List ℤ
  float_col : List PyFloat
  double_col : List PyFloat
  string_col : List (Option String)
  nullable_int : List (Option ℤ)
deriving DecidableEq

/-- The per-file columns block of the comprehensive manifest
(file_info.columns, first five values per column). -/
structure CompFileCols where
  bool_first : List Bool
  int32_first : List ℤ
  int64_first : List ℤ
  float_first : List PyFloat
  double_first : List PyFloat
  string_first : List (Option String)
  nullable_first : List (Option ℤ)
deriving DecidableEq

/-- The verification block of the comprehensive manifest (precomputed
aggregates emitted by the writer under test). -/
structure CompVerification where
  null_count_string_col : ℤ
  null_count_nullable_int : ℤ
  int32_sum : ℤ
  last_int32 : ℤ
deriving DecidableEq

/-- The comprehensive manifest fields that verify_with_pyarrow reads:
num_rows and the verification aggregates. -/
structure CompExpected where
  num_rows : ℤ
  verification : CompVerification
deriving DecidableEq

/-- The float-column loop of verify_with_pyarrow in
src/interop/verify_comprehensive.py (lines 93-97 and 101-104): walk the
zipped actual/expected pairs; on the first pair whose absolute
difference exceeds the tolerance, append one error and break; later
pairs are never examined. -/
def floatPairErrors (mk : ℕ → PyFloat → PyFloat → CompErr) (tol : PyFloat) :
    ℕ → List (PyFloat × PyFloat) → List CompErr
  | _, [] => []
  | i, (a, b) :: rest =>
    if PyFloat.blt tol (pyAbs (PyFloat.sub a b)) = true then [mk i a b]
    else floatPairErrors mk tol (i + 1) rest

/-- Boolean check that every zipped pair is within the absolute
tolerance (non-strict: difference less than or equal to tol). -/
def pairsWithin (tol : PyFloat) (ps : List (PyFloat × PyFloat)) : Bool :=
  ps.all fun p => PyFloat.ble (pyAbs (PyFloat.sub p.1 p.2)) tol

/-- Count of Python None entries in a column (the sum-of-generator
null-count expressions of verify_with_pyarrow). -/
def noneCount {α : Type} (l : List (Option α)) : ℤ :=
  ((l.filter fun x => x.isNone).length : ℤ)

/-- The error list accumulated by verify_with_pyarrow in
src/interop/verify_comprehensive.py (lines 57-141) after a successful
read, given the last int32 element: in program order — row count; bool,
int32, int64 first-five list equality; float and double first-five
loops with break at tolerance 1e-4 and 1e-10 respectively; string and
nullable first-five list equality; the two null counts; the int32 sum;
and the last int32 element. -/
def compErrBlocks (t : CompTable) (e : CompExpected) (c : CompFileCols)
    (last : ℤ) : List CompErr :=
  (if t.num_rows ≠ e.num_rows then [CompErr.rowCount t.num_rows e.num_rows] else [])
  ++ (if t.bool_col.take 5 ≠ c.bool_first then
      [CompErr.boolFirst (t.bool_col.take 5) c.bool_first] else [])
  ++ (if t.int32_col.take 5 ≠ c.int32_first then
      [CompErr.int32First (t.int32_col.take 5) c.int32_first] else [])
  ++ (if t.int64_col.take 5 ≠ c.int64_first then
      [CompErr.int64First (t.int64_col.take 5) c.int64_first] else [])
  ++ floatPairErrors CompErr.floatAt (pf 1 10000) 0
      ((t.float_col.take 5).zip c.float_first)
  ++ floatPairErrors CompErr.doubleAt (pf 1 10000000000) 0
      ((t.double_col.take 5).zip c.double_first)
  ++ (if t.string_col.take 5 ≠ c.string_first then
      [CompErr.stringFirst (t.string_col.take 5) c.string_first] else [])
  ++ (if t.nullable_int.take 5 ≠ c.nullable_first then
      [CompErr.nullableFirst (t.nullable_int.take 5) c.nullable_first] else [])
  ++ (if noneCount t.string_col ≠ e.verification.null_count_string_col then
      [CompErr.stringNullCount (noneCount t.string_col) e.verification.null_count_string_col] else [])
  ++ (if noneCount t.nullable_int ≠ e.verification.null_count_nullable_int then
      [CompErr.nullableNullCount (noneCount t.nullable_int) e.verification.null_count_nullable_int] else [])
  ++ (if t.int32_col.sum ≠ e.verification.int32_sum then
      [CompErr.int32Sum t.int32_col.sum e.verification.int32_sum] else [])
  ++ (if last ≠ e.verification.last_int32 then
      [CompErr.lastInt32 last e.verification.last_int32] else [])

/-- verify_with_pyarrow from src/interop/verify_comprehensive.py
(lines 57-141), after a successful read: indexing the last element of
an empty int32 column raises IndexError (the comparison section of the
Python function is outside its try block, and the raise discards the
errors accumulated so far), so the result is an Except whose error is
the uncaught exception; otherwise the compErrBlocks error list. -/
def verifyPyarrowComp (t : CompTable) (e : CompExpected) (c : CompFileCols) :
    Except String (List CompErr) :=
  match t.int32_col.getLast? with
  | none => Except.error "IndexError: list index out of range"
  | some last => Except.ok (compErrBlocks t e c last)

/-- One error appended by the PyArrow verification step of
run_roundtrip_test in src/interop/roundtrip_test.py (lines 246-288);
constructors mirror the five mismatch f-strings. -/
inductive RtErr where
  | int32Mismatch (got expected : List ℤ)
  | int64Mismatch (got expected : List ℤ)
  | floatMismatch (got expected : List PyFloat)
  | doubleMismatch (got expected : List PyFloat)
  | nullableMismatch (got expected : List (Option ℤ))
deriving DecidableEq

/-- The roundtrip test table as read back by a reader: the five-column
schema written by roundtrip_writer.c, with nulls as Option none. -/
structure RtTable where
  int32_col : List ℤ
  int64_col : List ℤ
  float_col : List PyFloat
  double_col : List PyFloat
  nullable_int : List (Option ℤ)
deriving DecidableEq

/-- The columns block of the roundtrip Expected-Values Manifest (the
JSON printed by roundtrip_writer.c, roundtrip_test.py lines 169-178):
first five values per column and, for the nullable column, the
null_indices list. -/
structure RtManifestCols where
  int32_first : List ℤ
  int64_first : List ℤ
  float_first : List PyFloat
  double_first : List PyFloat
  nullable_first : List (Option ℤ)
  null_indices : List ℕ
deriving DecidableEq

/-- The all(abs(a - b) < tol for a, b in zip(xs, ys)) generator
expressions of run_roundtrip_test (strict less-than). -/
def allWithin (tol : PyFloat) (xs ys : List PyFloat) : Bool :=
  (xs.zip ys).all fun p => PyFloat.blt (pyAbs (PyFloat.sub p.1 p.2)) tol

/-- The value checks of Step 3 of run_roundtrip_test
(src/interop/roundtrip_test.py lines 246-288): first-five list equality
for int32_col and int64_col, tolerance checks for float_col (1e-5) and
double_col (1e-10) — each float column contributing at most one error
for the whole column — and first-five list equality for nullable_int,
appended in program order. -/
def roundtripErrors (m : RtManifestCols) (t : RtTable) : List RtErr :=
  (if t.int32_col.take 5 ≠ m.int32_first then
      [RtErr.int32Mismatch (t.int32_col.take 5) m.int32_first] else [])
  ++ (if t.int64_col.take 5 ≠ m.int64_first then
      [RtErr.int64Mismatch (t.int64_col.take 5) m.int64_first] else [])
  ++ (if allWithin (pf 1 100000) (t.float_col.take 5) m.float_first = false then
      [RtErr.floatMismatch (t.float_col.take 5) m.float_first] else [])
  ++ (if allWithin (pf 1 10000000000) (t.double_col.take 5) m.double_first = false then
      [RtErr.doubleMismatch (t.double_col.take 5) m.double_first] else [])
  ++ (if t.nullable_int.take 5 ≠ m.nullable_first then
      [RtErr.nullableMismatch (t.nullable_int.take 5) m.nullable_first] else [])

/-- The DuckDB quick value check of Step 4 of run_roundtrip_test:
row 1 of int32_col equals 10 and row 1 of int64_col equals 1000000. -/
def duckQuickOk (t : RtTable) : Bool :=
  (t.int32_col.get? 1 == some 10) && (t.int64_col.get? 1 == some 1000000)

/-- The data fed into the candidate writer by roundtrip_writer.c
(roundtrip_test.py lines 146-160): 1000 rows with int32_data i*10,
int64_data i*1000000, float_data i*0.5, double_data i*0.125,
nullable_data i*100 with definition level 0 (null) on every 5th row. -/
def rtWriterTable : RtTable :=
  { int32_col := (List.range 1000).map fun i => (i : ℤ) * 10
  , int64_col := (List.range 1000).map fun i => (i : ℤ) * 1000000
  , float_col := (List.range 1000).map fun i => pf ((i : ℤ) * 1) 2
  , double_col := (List.range 1000).map fun i => pf ((i : ℤ) * 1) 8
  , nullable_int := (List.range 1000).map fun i =>
      if i % 5 = 0 then none else some ((i : ℤ) * 100) }

/-- The definition levels fed to the writer for nullable_int
(roundtrip_test.py line 152): 0 (null) on every 5th row, else 1. -/
def rtDefLevels : List ℤ :=
  (List.range 1000).map fun i => if i % 5 = 0 then 0 else 1

/-- The Expected-Values Manifest printed on stdout by
roundtrip_writer.c (roundtrip_test.py lines 169-178), parsed: the
declared first five values per column and the null_indices list
[0, 5, 10, 15, 20]. -/
def rtManifest : RtManifestCols :=
  { int32_first := [0, 10, 20, 30, 40]
  , int64_first := [0, 1000000, 2000000, 3000000, 4000000]
  , float_first := [pf 0 1, pf 5 10, pf 1 1, pf 15 10, pf 2 1]
  , double_first := [pf 0 1, pf 125 1000, pf 25 100, pf 375 1000, pf 5 10]
  , nullable_first := [none, some 100, some 200, some 300, some 400]
  , null_indices := [0, 5, 10, 15, 20] }

/-- The completed-subprocess value returned by subprocess.run for the
candidate writer (returncode, captured stdout and stderr). -/
structure ProcResult where
  returncode : ℤ
  stdout : String
  stderr : String
deriving DecidableEq

/-- The outcome of running a piece of Python code that may raise:
either a value or a raised exception carrying its message. -/
inductive ReadOutcome (α : Type) where
  | ok (v : α)
  | raised (msg : String)
deriving DecidableEq

/-- The roundtrip Expected-Values Manifest as parsed from the writer's
stdout (num_rows and the columns block). -/
structure RtManifest where
  num_rows : ℤ
  columns : RtManifestCols
deriving DecidableEq

/-- The comprehensive manifest fields read before per-file testing:
num_rows and the files list of path and compression pairs. -/
structure CompManifest where
  num_rows : ℤ
  files : List (String × String)
deriving DecidableEq

/-- The fate of one candidate-writer invocation in the Python
harness: a hard failure on nonzero exit (the harness prints stderr and
returns 1 without reading stdout), an exception raised by json.loads
on unparsable stdout, or a parsed manifest. -/
inductive BridgeOutcome (μ : Type) where
  | hardFail (stderr : String)
  | parseRaise (msg : String)
  | ok (m : μ)
deriving DecidableEq

/-- Step 2 of run_roundtrip_test (src/interop/roundtrip_test.py lines
222-236): run the writer; if its returncode is nonzero, print stderr
and fail the run immediately — stdout is never parsed; otherwise parse
stdout as the manifest (json.loads, whose failure raises). -/
def roundtripBridge (res : ProcResult)
    (jsonLoads : String → ReadOutcome RtManifest) : BridgeOutcome RtManifest :=
  if res.returncode ≠ 0 then BridgeOutcome.hardFail res.stderr
  else match jsonLoads res.stdout with
    | .ok m => BridgeOutcome.ok m
    | .raised e => BridgeOutcome.parseRaise e

/-- The writer invocation of run_comprehensive_test
(src/interop/verify_comprehensive.py lines 190-202): identical
structure — nonzero returncode fails the run before stdout is parsed. -/
def comprehensiveBridge (res : ProcResult)
    (jsonLoads : String → ReadOutcome CompManifest) : BridgeOutcome CompManifest :=
  if res.returncode ≠ 0 then BridgeOutcome.hardFail res.stderr
  else match jsonLoads res.stdout with
    | .ok m => BridgeOutcome.ok m
    | .raised e => BridgeOutcome.parseRaise e

/-- A json.loads stand-in that always raises (used to witness that a
nonzero exit code short-circuits before any parsing). -/
def rtParseStub : String → ReadOutcome RtManifest :=
  fun _ => ReadOutcome.raised "json decode error"

/-- A json.loads stand-in for the comprehensive manifest that always
raises. -/
def compParseStub : String → ReadOutcome CompManifest :=
  fun _ => ReadOutcome.raised "json decode error"

/-- The result dict returned by an adapter function of
src/interop/verify_carquet_output.py, by shape: the availability error
dict (error key only, no success key), the success dict, or the
failure dict (success False plus the caught exception text). -/
inductive AdapterRes (α : Type) where
  | unavailable (msg : String)
  | ok (r : α)
  | failed (err : String)
deriving DecidableEq

/-- result.get of the success key with default False: True only for a
success dict (an availability error dict has no success key). -/
def isSucc {α : Type} : AdapterRes α → Bool
  | .ok _ => true
  | _ => false

/-- Whether a modelled Python computation completed without raising. -/
def outcomeOk {α : Type} : ReadOutcome α → Bool
  | .ok _ => true
  | .raised _ => false

/-- The summary dict built by verify_with_pyarrow in
src/interop/verify_carquet_output.py on a successful read. -/
structure PaSummary where
  num_rows : ℤ
  num_columns : ℤ
  columns : List (String × PaColInfo)
  schema : String
deriving DecidableEq

/-- The summary dict built by verify_with_duckdb: row count and the
per-column type and first-five sample values. -/
structure DuckSummary where
  num_rows : ℤ
  num_columns : ℤ
  columns : List (String × String × List Value)
deriving DecidableEq

/-- The summary dict built by verify_with_pandas. -/
structure PdSummary where
  num_rows : ℤ
  num_columns : ℤ
deriving DecidableEq

/-- verify_with_pyarrow from src/interop/verify_carquet_output.py
(lines 45-73): if pyarrow failed to import, return the availability
error dict; otherwise the whole read-and-summarize body runs inside
try/except Exception, so a raise (modelled by the ReadOutcome argument,
which stands for the entire try block) becomes the failure dict. The
Except layer models Python exception propagation to the caller: an
Except.error would be an uncaught exception, and none occurs. -/
def verify_with_pyarrow (hasPyarrow : Bool) (tryBlock : ReadOutcome PaSummary) :
    Except String (AdapterRes PaSummary) :=
  if hasPyarrow = false then Except.ok (AdapterRes.unavailable "pyarrow not available")
  else match tryBlock with
    | .ok s => Except.ok (AdapterRes.ok s)
    | .raised e => Except.ok (AdapterRes.failed e)

/-- verify_with_duckdb from src/interop/verify_carquet_output.py
(lines 76-110): same shape with the duckdb availability flag. -/
def verify_with_duckdb (hasDuckdb : Bool) (tryBlock : ReadOutcome DuckSummary) :
    Except String (AdapterRes DuckSummary) :=
  if hasDuckdb = false then Except.ok (AdapterRes.unavailable "duckdb not available")
  else match tryBlock with
    | .ok s => Except.ok (AdapterRes.ok s)
    | .raised e => Except.ok (AdapterRes.failed e)

/-- verify_with_pandas from src/interop/verify_carquet_output.py
(lines 113-128): unavailable when pandas or pyarrow failed to import. -/
def verify_with_pandas (hasPandas hasPyarrow : Bool)
    (tryBlock : ReadOutcome PdSummary) : Except String (AdapterRes PdSummary) :=
  if (hasPandas && hasPyarrow) = false then
    Except.ok (AdapterRes.unavailable "pandas/pyarrow not available")
  else match tryBlock with
    | .ok s => Except.ok (AdapterRes.ok s)
    | .raised e => Except.ok (AdapterRes.failed e)

/-- The success tally of main in src/interop/verify_carquet_output.py
(lines 280-284): the sum of the three success flags. -/
def succCount {α β γ : Type} (pa : AdapterRes α) (db : AdapterRes β)
    (pd : AdapterRes γ) : ℕ :=
  (if isSucc pa then 1 else 0) + (if isSucc db then 1 else 0)
    + (if isSucc pd then 1 else 0)

/-- The exit code of main in src/interop/verify_carquet_output.py
(lines 286-294): 0 when all three adapters succeeded, 1 when some but
not all did, 2 when none did. -/
def mainExit {α β γ : Type} (pa : AdapterRes α) (db : AdapterRes β)
    (pd : AdapterRes γ) : ℤ :=
  if succCount pa db pd = 3 then 0
  else if succCount pa db pd > 0 then 1
  else 2

/-- The exit code of run_comprehensive_test in
src/interop/verify_comprehensive.py (lines 243-257): 0 when the total
error count is zero, 1 otherwise. -/
def compExit (totalErrors : ℕ) : ℤ := if totalErrors = 0 then 0 else 1

/-- The state of the process-global numpy random generator. numpy
itself is an external collaborator of the repository; its documented
interface is a deterministic PRNG whose global state is fully
reinitialized by np.random.seed and advanced by each draw. The state
machine is modelled with a concrete linear-congruential step standing
in for MT19937 — the determinism facts proved below depend only on the
draws being deterministic functions of the state, which is numpy's
documented behaviour. -/
structure RngState where
  state : ℕ
deriving DecidableEq

/-- np.random.seed: deterministically reinitializes the global state
from the 32-bit seed, discarding whatever state was there before. -/
def seedState (seed : ℕ) : RngState := ⟨seed % 4294967296⟩

/-- One step of the modelled generator. -/
def nextState (g : RngState) : RngState :=
  ⟨(g.state * 6364136223846793005 + 1442695040888963407) % 18446744073709551616⟩

/-- One draw of np.random.randint(0, bound): an integer in
[0, bound). -/
def drawNat (g : RngState) (bound : ℕ) : ℕ × RngState :=
  let g' := nextState g
  ((g'.state % bound), g')

/-- One draw of np.random.random(): a float in [0, 1), modelled as a
53-bit fraction. -/
def drawUnit (g : RngState) : PyFloat × RngState :=
  let g' := nextState g
  (pf ((g'.state % 9007199254740992 : ℕ) : ℤ) 9007199254740992, g')

/-- np.random.randint(lo, bound, n): n draws, advancing the state. -/
def drawNats (g : RngState) (bound : ℕ) : ℕ → List ℕ × RngState
  | 0 => ([], g)
  | n + 1 =>
    let (x, g') := drawNat g bound
    let (xs, g'') := drawNats g' bound n
    (x :: xs, g'')

/-- np.random.random(n): n unit draws, advancing the state. -/
def drawUnits (g : RngState) : ℕ → List PyFloat × RngState
  | 0 => ([], g)
  | n + 1 =>
    let (x, g') := drawUnit g
    let (xs, g'') := drawUnits g' n
    (x :: xs, g'')

/-- Exact fraction addition (the float additions of generate_data). -/
def PyFloat.add (a b : PyFloat) : PyFloat :=
  ⟨a.num * b.den + b.num * a.den, a.den * b.den⟩

/-- Exact fraction multiplication (the float scalings of
generate_data). -/
def PyFloat.mul (a b : PyFloat) : PyFloat := ⟨a.num * b.num, a.den * b.den⟩

/-- The table produced by generate_data in
src/benchmark/generate_test_files.py: six named columns. The float32
cast of the value_f32 column is modelled as the identity on exact
fractions. -/
structure BenchTable where
  id : List ℤ
  value_i32 : List ℤ
  value_f64 : List PyFloat
  value_f32 : List PyFloat
  category : List ℤ
  nullable_val : List (Option PyFloat)
deriving DecidableEq

/-- generate_data from src/benchmark/generate_test_files.py (lines
23-54). The pre-call global generator state is an explicit argument;
the first statement np.random.seed(seed) replaces it. Then, in program
order: noise for the sequential id column (randint 0 100), the random
int32 column (randint 0 1000000), the double column's noise (random,
scaled by 0.01 and added to i*0.001), the float column (random, scaled
by 100), the low-cardinality category column (randint 0 100), the
nullable values (random, scaled by 1000) and the null mask
(random < 0.1). -/
def generate_data (globalRng : RngState) (num_rows : ℕ) (seed : ℕ) : BenchTable :=
  let g0 := seedState seed
  let (noise, g1) := drawNats g0 100 num_rows
  let (i32, g2) := drawNats g1 1000000 num_rows
  let (dnoise, g3) := drawUnits g2 num_rows
  let (f32, g4) := drawUnits g3 num_rows
  let (cat, g5) := drawNats g4 100 num_rows
  let (nvals, g6) := drawUnits g5 num_rows
  let (mask, _) := drawUnits g6 num_rows
  { id := (List.zipWith (fun i x => (i : ℤ) * 1000 + (x : ℤ)) (List.range num_rows) noise)
  , value_i32 := i32.map fun x => (x : ℤ)
  , value_f64 := List.zipWith
      (fun i r => PyFloat.add (pf (i : ℤ) 1000) (PyFloat.mul r (pf 1 100)))
      (List.range num_rows) dnoise
  , value_f32 := f32.map fun r => PyFloat.mul r (pf 100 1)
  , category := cat.map fun x => (x : ℤ)
  , nullable_val := List.zipWith
      (fun r m => if PyFloat.blt m (pf 1 10) = true then none
                  else some (PyFloat.mul r (pf 1000 1)))
      nvals mask }

theorem PyFloat.blt_false_iff (a b : PyFloat) :
    PyFloat.blt a b = false ↔ PyFloat.ble b a = true := by
  simp [PyFloat.blt, PyFloat.ble, Int.not_lt]

theorem floatPairErrors_eq_nil (mk : ℕ → PyFloat → PyFloat → CompErr)
    (tol : PyFloat) (i : ℕ) (ps : List (PyFloat × PyFloat)) :
    floatPairErrors mk tol i ps = [] ↔ pairsWithin tol ps = true := by
  induction ps generalizing i with
  | nil => simp [floatPairErrors, pairsWithin]
  | cons p rest ih =>
    obtain ⟨a, b⟩ := p
    cases hb : PyFloat.blt tol (pyAbs (PyFloat.sub a b)) with
    | true =>
      have hble : PyFloat.ble (pyAbs (PyFloat.sub a b)) tol = false := by
        cases hble2 : PyFloat.ble (pyAbs (PyFloat.sub a b)) tol
        · rfl
        · rw [(PyFloat.blt_false_iff _ _).mpr hble2] at hb
          exact absurd hb (by simp)
      simp [floatPairErrors, pairsWithin, hb, hble]
    | false =>
      have hble : PyFloat.ble (pyAbs (PyFloat.sub a b)) tol = true :=
        (PyFloat.blt_false_iff _ _).mp hb
      simp only [floatPairErrors, hb, Bool.false_eq_true, if_false]
      rw [ih (i + 1)]
      simp [pairsWithin, hble]

theorem floatPairErrors_length_le_one (mk : ℕ → PyFloat → PyFloat → CompErr)
    (tol : PyFloat) (i : ℕ) (ps : List (PyFloat × PyFloat)) :
    (floatPairErrors mk tol i ps).length ≤ 1 := by
  induction ps generalizing i with
  | nil => simp [floatPairErrors]
  | cons p rest ih =>
    obtain ⟨a, b⟩ := p
    cases hb : PyFloat.blt tol (pyAbs (PyFloat.sub a b)) with
    | true => simp [floatPairErrors, hb]
    | false =>
      simp only [floatPairErrors, hb, Bool.false_eq_true, if_false]
      exact ih (i + 1)

theorem assocFind_eq_none {α : Type} (l : List (String × α)) (k : String)
    (h : k ∉ l.map Prod.fst) : assocFind l k = none := by
  induction l with
  | nil => rfl
  | cons p rest ih =>
    simp only [List.map_cons, List.mem_cons] at h
    push_neg at h
    simp only [assocFind]
    rw [if_neg (fun hk => h.1 hk.symm)]
    exact ih h.2

theorem comparePairs_take_right (col : String) (i : ℕ) (es as : List Value) :
    comparePairs col i es as = comparePairs col i es (as.take es.length) := by
  induction es generalizing as i with
  | nil => cases as <;> rfl
  | cons e es ih =>
    cases as with
    | nil => rfl
    | cons a as =>
      simp only [comparePairs, List.length_cons, List.take_succ_cons]
      rw [ih]

theorem comparePairs_take_left (col : String) (i : ℕ) (es as : List Value) :
    comparePairs col i es as = comparePairs col i (es.take as.length) as := by
  induction es generalizing as i with
  | nil => cases as <;> rfl
  | cons e es ih =>
    cases as with
    | nil => rfl
    | cons a as =>
      simp only [comparePairs, List.length_cons, List.take_succ_cons]
      rw [ih]

theorem mainExit_characterization {α β γ : Type} (a : AdapterRes α)
    (b : AdapterRes β) (c : AdapterRes γ) :
    (mainExit a b c = 0 ↔ succCount a b c = 3) ∧
    (mainExit a b c = 1 ↔ (0 < succCount a b c ∧ succCount a b c < 3)) ∧
    (mainExit a b c = 2 ↔ succCount a b c = 0) := by
  cases a <;> cases b <;> cases c <;> simp [mainExit, succCount, isSucc]

/-- A passing two-row comprehensive table (used to witness the
tolerance property on a concrete passing run). -/
def compTable0 : CompTable :=
  { num_rows := 2, bool_col := [true, false], int32_col := [1, 2]
  , int64_col := [10, 20], float_col := [pf 1 2, pf 1 1]
  , double_col := [pf 1 8, pf 1 4], string_col := [some "a", none]
  , nullable_int := [none, some 5] }

/-- The manifest aggregates consistent with compTable0. -/
def compExpected0 : CompExpected :=
  { num_rows := 2
  , verification := { null_count_string_col := 1, null_count_nullable_int := 1
                    , int32_sum := 3, last_int32 := 2 } }

/-- The manifest first-five column values consistent with compTable0. -/
def compCols0 : CompFileCols :=
  { bool_first := [true, false], int32_first := [1, 2], int64_first := [10, 20]
  , float_first := [pf 1 2, pf 1 1], double_first := [pf 1 8, pf 1 4]
  , string_first := [some "a", none], nullable_first := [none, some 5] }

/-- An expected-data dict declaring one double-precision column whose
single expected value is 0.0. -/
def cexExpected : CVExpected :=
  { num_rows := 1, num_columns := 1
  , values := some [("double_col", [Value.float (pf 0 1)])] }

/-- A successful pyarrow report whose double_col value is 2 to the
power -24 (about 5.96e-8): more than 1e-10 away from the expected 0.0
but within compare_values' uniform 1e-6 tolerance. -/
def cexPaReport : PaReport :=
  { success := true, num_rows := 1, num_columns := 1
  , columns := [("double_col",
      { type := "double", null_count := 0, num_values := 1
      , first_values := [Value.float (pf 1 16777216)]
      , last_values := [Value.float (pf 1 16777216)] })] }

/-- A duckdb result with success False (reader unavailable or failed). -/
def cexDuck : DuckRes := { success := false, num_rows := 0 }

/-- C1 counterexample: compare_values (one of the three comparators the
claim covers) applies a uniform 1e-6 tolerance, not the type-specific
1e-10 double-precision tolerance: a run passes (empty discrepancy list)
although its double-precision pair differs from the expected value by
more than 1e-10 — the pair is unequal and beyond the claimed tolerance,
yet yields no discrepancy. -/
theorem C1_counterexample :
    compare_values cexExpected cexPaReport cexDuck = [] ∧
    pyEq (Value.float (pf 0 1)) (Value.float (pf 1 16777216)) = false ∧
    PyFloat.blt (pf 1 10000000000)
      (pyAbs (PyFloat.sub (pf 0 1) (pf 1 16777216))) = true := by
  refine ⟨by decide, by decide, by decide⟩

/-- C1 amended: the type-specific tolerances hold for the comprehensive
comparator (verify_with_pyarrow in src/interop/verify_comprehensive.py,
1e-4 for float32 and 1e-10 for float64): in a passing run of that
comparator no compared float pair differs by more than 1e-4 and no
double pair by more than 1e-10. -/
theorem C1_amended (t : CompTable) (e : CompExpected) (c : CompFileCols)
    (h : verifyPyarrowComp t e c = Except.ok []) :
    pairsWithin (pf 1 10000) ((t.float_col.take 5).zip c.float_first) = true ∧
    pairsWithin (pf 1 10000000000)
      ((t.double_col.take 5).zip c.double_first) = true := by
  unfold verifyPyarrowComp at h
  split at h
  · exact absurd h (by simp)
  · simp only [Except.ok.injEq] at h
    unfold compErrBlocks at h
    simp only [List.append_eq_nil] at h
    obtain ⟨⟨⟨⟨⟨⟨⟨⟨⟨⟨⟨h1, h2⟩, h3⟩, h4⟩, h5⟩, h6⟩, h7⟩, h8⟩, h9⟩, h10⟩, h11⟩, h12⟩ := h
    exact ⟨(floatPairErrors_eq_nil _ _ _ _).mp h5,
           (floatPairErrors_eq_nil _ _ _ _).mp h6⟩

/-- C1 witness: a concrete passing run of the comprehensive comparator,
and the tolerance property instantiated at it. -/
theorem C1_witness :
    verifyPyarrowComp compTable0 compExpected0 compCols0 = Except.ok [] ∧
    pairsWithin (pf 1 10000)
      ((compTable0.float_col.take 5).zip compCols0.float_first) = true ∧
    pairsWithin (pf 1 10000000000)
      ((compTable0.double_col.take 5).zip compCols0.double_first) = true :=
  ⟨rfl, C1_amended compTable0 compExpected0 compCols0 rfl⟩

/-- An expected-data dict declaring one float column whose first two
expected values are both 0.0. -/
def c2Expected : CVExpected :=
  { num_rows := 2, num_columns := 1
  , values := some [("float_col",
      [Value.float (pf 0 1), Value.float (pf 0 1)])] }

/-- A successful pyarrow report whose float_col values are both 1.0:
both pairs are out of tolerance. -/
def c2PaReport : PaReport :=
  { success := true, num_rows := 2, num_columns := 1
  , columns := [("float_col",
      { type := "float", null_count := 0, num_values := 2
      , first_values := [Value.float (pf 1 1), Value.float (pf 1 1)]
      , last_values := [Value.float (pf 1 1), Value.float (pf 1 1)] })] }

/-- C2 counterexample: compare_values (one of the two comparators the
claim covers) has no short-circuit: both out-of-tolerance pairs of the
single floating column are reported, so its discrepancy list holds two
entries for that column. -/
theorem C2_counterexample :
    compare_values c2Expected c2PaReport cexDuck =
      [CVErr.valueMismatch "float_col" 0 (Value.float (pf 0 1)) (Value.float (pf 1 1)),
       CVErr.valueMismatch "float_col" 1 (Value.float (pf 0 1)) (Value.float (pf 1 1))] ∧
    (compare_values c2Expected c2PaReport cexDuck).length = 2 := by
  refine ⟨by decide, by decide⟩

/-- C2 amended: the short-circuit holds for the comprehensive
comparator's float loops (verify_with_pyarrow in
src/interop/verify_comprehensive.py): a float column contributes at
most one discrepancy, and it contributes none exactly when every
compared pair is within tolerance. -/
theorem C2_amended : ∀ (mk : ℕ → PyFloat → PyFloat → CompErr) (tol : PyFloat)
    (i : ℕ) (ps : List (PyFloat × PyFloat)),
    (floatPairErrors mk tol i ps).length ≤ 1 ∧
    (floatPairErrors mk tol i ps = [] ↔ pairsWithin tol ps = true) :=
  fun mk tol i ps =>
    ⟨floatPairErrors_length_le_one mk tol i ps, floatPairErrors_eq_nil mk tol i ps⟩

/-- A concrete successful pyarrow summary (a read that worked). -/
def paSummary0 : PaSummary := { num_rows := 1000, num_columns := 5, columns := [], schema := "s" }

/-- A concrete successful duckdb summary. -/
def duckSummary0 : DuckSummary := { num_rows := 1000, num_columns := 5, columns := [] }

/-- A concrete successful pandas summary. -/
def pdSummary0 : PdSummary := { num_rows := 1000, num_columns := 5 }

/-- C3 counterexample: with pyarrow and duckdb succeeding and pandas
unavailable — so every available adapter passes — main's tally counts
the unavailable adapter as a non-success (its dict has no success key)
and the run exits 1, not 0: an unavailable adapter is not excluded from
the pass/fail tally and does count against the candidate writer. -/
theorem C3_counterexample :
    mainExit (AdapterRes.ok paSummary0) (AdapterRes.ok duckSummary0)
      (AdapterRes.unavailable (α := PdSummary) "pandas/pyarrow not available") = 1 ∧
    isSucc (AdapterRes.unavailable (α := PdSummary) "pandas/pyarrow not available")
      = false ∧
    (1 : ℤ) ≠ 0 := by
  refine ⟨rfl, rfl, by decide⟩

/-- C3 amended: an unavailable adapter does contribute zero
discrepancies to compare_values (the result is independent of the data
carried alongside a success flag of False, for pyarrow and for duckdb
alike), but it is not excluded from main's pass/fail tally: it counts
as a non-passing reader, so a run whose two other adapters succeed
exits 1 rather than 0. -/
theorem C3_amended : ∀ (e : CVExpected) (nr nc : ℤ)
    (cols : List (String × PaColInfo)) (db : DuckRes) (pa : PaReport) (nr' : ℤ)
    (α β : Type) (r1 : α) (r2 : β) (m : String),
    compare_values e ⟨false, nr, nc, cols⟩ db = compare_values e ⟨false, 0, 0, []⟩ db ∧
    compare_values e pa ⟨false, nr'⟩ = compare_values e pa ⟨false, 0⟩ ∧
    mainExit (AdapterRes.ok r1) (AdapterRes.ok r2)
      (AdapterRes.unavailable (α := PdSummary) m) = 1 := by
  intro e nr nc cols db pa nr' α β r1 r2 m
  refine ⟨?_, ?_, rfl⟩
  · simp [compare_values]
  · simp [compare_values]

/-- C4 counterexample: pyarrow and pandas succeed while duckdb is
unavailable — all available readers passed and no adapter reported a
discrepancy — yet the exit code is 1, not 0: the claimed meaning of the
exit codes does not hold when an adapter is unavailable. -/
theorem C4_counterexample :
    mainExit (AdapterRes.ok paSummary0)
      (AdapterRes.unavailable (α := DuckSummary) "duckdb not available")
      (AdapterRes.ok pdSummary0) = 1 ∧
    (1 : ℤ) ≠ 0 := by
  refine ⟨rfl, by decide⟩

/-- C4 amended: the exit code of verify_carquet_output's main is
exactly: 0 when all three adapters succeed, 1 when some but not all
succeed, and 2 when none succeeds — an unavailable adapter counting as
a non-success — and these three outcomes are mutually exclusive and
exhaustive; run_comprehensive_test's exit code is 0 on zero accumulated
errors and 1 otherwise, never 2. -/
theorem C4_amended : ∀ (α β γ : Type) (a : AdapterRes α) (b : AdapterRes β)
    (c : AdapterRes γ) (n : ℕ),
    ((mainExit a b c = 0 ↔ succCount a b c = 3) ∧
     (mainExit a b c = 1 ↔ (0 < succCount a b c ∧ succCount a b c < 3)) ∧
     (mainExit a b c = 2 ↔ succCount a b c = 0)) ∧
    (compExit n = 0 ∨ compExit n = 1) := by
  intro α β γ a b c n
  refine ⟨mainExit_characterization a b c, ?_⟩
  unfold compExit
  split <;> simp

/-- C5: a nonzero candidate-writer exit code is a hard failure in both
harnesses: the result is the hard-failure outcome carrying stderr,
for every possible stdout and every possible json.loads behaviour — so
stdout is never parsed or trusted and no partial verification happens. -/
theorem C5_theorem : ∀ (res : ProcResult)
    (p1 : String → ReadOutcome RtManifest) (p2 : String → ReadOutcome CompManifest),
    res.returncode ≠ 0 →
    roundtripBridge res p1 = BridgeOutcome.hardFail res.stderr ∧
    comprehensiveBridge res p2 = BridgeOutcome.hardFail res.stderr := by
  intro res p1 p2 h
  constructor <;> simp [roundtripBridge, comprehensiveBridge, h]

/-- C5 witness: a writer process that exits 3 with unparsable stdout is
a hard failure under a json.loads that would raise. -/
theorem C5_witness :
    roundtripBridge ⟨3, "stdout junk", "boom"⟩ rtParseStub =
      BridgeOutcome.hardFail "boom" ∧
    comprehensiveBridge ⟨3, "stdout junk", "boom"⟩ compParseStub =
      BridgeOutcome.hardFail "boom" :=
  C5_theorem ⟨3, "stdout junk", "boom"⟩ rtParseStub compParseStub (by decide)

/-- C6 counterexample: the roundtrip manifest's null index list has 5
entries while the writer feeds 200 null rows (definition level 0 on
every 5th of 1000 rows), so the list does not enumerate all null rows
and its cardinality differs from the number of nulls fed in. -/
theorem C6_counterexample :
    rtManifest.null_indices.length = 5 ∧
    rtDefLevels.count 0 = 200 ∧
    rtManifest.null_indices.length ≠ rtDefLevels.count 0 := by
  refine ⟨rfl, by decide, by decide⟩

/-- C6 amended: the manifest's null index list [0, 5, 10, 15, 20] is
exactly the first five null row indices — every entry is a null row
(index divisible by 5, below 1000) — while the writer feeds 200 null
rows in total; the roundtrip manifest declares no null count at all. -/
theorem C6_amended :
    rtManifest.null_indices = (((List.range 1000).filter fun i => i % 5 == 0).take 5) ∧
    ((List.range 1000).filter fun i => i % 5 == 0).length = 200 ∧
    rtDefLevels.count 0 = 200 ∧
    ∀ j ∈ rtManifest.null_indices, j < 1000 ∧ j % 5 = 0 := by
  refine ⟨by decide, by decide, by decide, by decide⟩

/-- C7: generate_data is deterministic in (seed, num_rows): its first
statement np.random.seed(seed) replaces the global generator state, so
the produced table is independent of whatever global state existed
before the call — two invocations with identical seed and num_rows
produce element-wise identical tables. -/
theorem C7_theorem : ∀ (g1 g2 : RngState) (seed num_rows : ℕ),
    generate_data g1 num_rows seed = generate_data g2 num_rows seed :=
  fun _ _ _ _ => rfl

/-- C8: the concrete 1000-row roundtrip scenario. The manifest printed
by the writer declares exactly the claimed first five values per
column; the integer and nullable manifest values coincide with the
first five values fed into the writer (nullable_int null at row 0, the
first of every 5th row); and comparing the manifest against a correct
reader — one reporting exactly the written data — yields zero
discrepancies in the PyArrow step and passes the DuckDB quick check. -/
theorem C8_theorem :
    rtManifest.int32_first = [0, 10, 20, 30, 40] ∧
    rtManifest.int64_first = [0, 1000000, 2000000, 3000000, 4000000] ∧
    rtManifest.float_first = [pf 0 1, pf 5 10, pf 1 1, pf 15 10, pf 2 1] ∧
    rtManifest.double_first = [pf 0 1, pf 125 1000, pf 25 100, pf 375 1000, pf 5 10] ∧
    rtManifest.nullable_first = [none, some 100, some 200, some 300, some 400] ∧
    rtWriterTable.int32_col.take 5 = rtManifest.int32_first ∧
    rtWriterTable.int64_col.take 5 = rtManifest.int64_first ∧
    rtWriterTable.nullable_int.take 5 = rtManifest.nullable_first ∧
    roundtripErrors rtManifest rtWriterTable = [] ∧
    duckQuickOk rtWriterTable = true := by
  refine ⟨rfl, rfl, rfl, rfl, rfl, by decide, by decide, by decide, by decide, by decide⟩

/-- C9: each reference reader adapter of verify_carquet_output.py is
total: whatever the availability flags and whatever its try block does
(succeed or raise), it returns a result dict — no exception propagates
(the Except layer never holds an error) — and the returned dict's
success flag is true exactly when the library was importable and the
read did not raise; pandas additionally requires pyarrow. -/
theorem C9_theorem : ∀ (hp hd hpd : Bool) (o1 : ReadOutcome PaSummary)
    (o2 : ReadOutcome DuckSummary) (o3 : ReadOutcome PdSummary),
    (∃ r1, verify_with_pyarrow hp o1 = Except.ok r1 ∧
      isSucc r1 = (hp && outcomeOk o1)) ∧
    (∃ r2, verify_with_duckdb hd o2 = Except.ok r2 ∧
      isSucc r2 = (hd && outcomeOk o2)) ∧
    (∃ r3, verify_with_pandas hpd hp o3 = Except.ok r3 ∧
      isSucc r3 = (hpd && hp && outcomeOk o3)) := by
  intro hp hd hpd o1 o2 o3
  refine ⟨?_, ?_, ?_⟩
  · cases hp <;> cases o1 <;> exact ⟨_, rfl, rfl⟩
  · cases hd <;> cases o2 <;> exact ⟨_, rfl, rfl⟩
  · cases hpd <;> cases hp <;> cases o3 <;> exact ⟨_, rfl, rfl⟩

/-- C10: compare_values' value comparison skips an expected column that
is absent from the reader's columns (it contributes no discrepancy);
only the first 5 expected values of a column can ever be compared
(truncating the expected list to 5 never changes the result); and the
element-wise walk never looks past the shorter of the two lists
(truncating either list to the other's length never changes the
result). -/
theorem C10_theorem : ∀ (cname : String) (evs : List Value)
    (cols cols2 : List (String × PaColInfo)) (es as : List Value) (i : ℕ),
    cname ∉ cols.map Prod.fst →
    valuesErrs [(cname, evs)] cols = [] ∧
    valuesErrs [(cname, evs)] cols2 = valuesErrs [(cname, evs.take 5)] cols2 ∧
    comparePairs cname i es as = comparePairs cname i es (as.take es.length) ∧
    comparePairs cname i es as = comparePairs cname i (es.take as.length) as := by
  intro cname evs cols cols2 es as i h
  refine ⟨?_, ?_, comparePairs_take_right cname i es as,
          comparePairs_take_left cname i es as⟩
  · simp [valuesErrs, assocFind_eq_none cols cname h]
  · cases hF : assocFind cols2 cname <;> simp [valuesErrs, hF, List.take_take]

/-- A concrete column summary used to witness C10. -/
def paColInfo0 : PaColInfo :=
  { type := "int32", null_count := 0, num_values := 1
  , first_values := [Value.int 2], last_values := [Value.int 2] }

/-- C10 witness: a concrete expected column absent from the reader's
columns yields no discrepancy, and the truncation facts at concrete
lists. -/
theorem C10_witness :
    valuesErrs [("missing", [Value.int 1])] [("present", paColInfo0)] = [] ∧
    valuesErrs [("missing", [Value.int 1])] [("missing", paColInfo0)] =
      valuesErrs [("missing", ([Value.int 1]).take 5)] [("missing", paColInfo0)] ∧
    comparePairs "missing" 0 [Value.int 1] [Value.int 0, Value.int 9] =
      comparePairs "missing" 0 [Value.int 1]
        (([Value.int 0, Value.int 9]).take ([Value.int 1]).length) ∧
    comparePairs "missing" 0 [Value.int 1] [Value.int 0, Value.int 9] =
      comparePairs "missing" 0
        (([Value.int 1]).take ([Value.int 0, Value.int 9]).length)
        [Value.int 0, Value.int 9] :=
  C10_theorem "missing" [Value.int 1] [("present", paColInfo0)]
    [("missing", paColInfo0)] [Value.int 1] [Value.int 0, Value.int 9] 0 (by decide)
